import Mathlib

/-!
RFP-Optimize-AI — verification of the AI analysis orchestration pipeline
(`src/ai_engine.py`) against its natural-language specification.

Modelling conventions (shallow embedding of the Python source):
* Python dynamic values are modelled by the inductive `PyVal`; Python
  numbers (`int`/`float`) are modelled exactly by `ℚ`.
* A Python exception is modelled by `Except Unit`; a `try/except` block
  becomes a `match` on the `Except` value.
* The Gemini completion client (`model.generate_content`) is an opaque
  capability `Client := String → Except Unit String`: given the prompt it
  either fails (any invocation error) or returns the raw response text.
* `json.loads` (Python stdlib, not repository code) is modelled by the
  executable recursive-descent parser `jsonLoads` over the JSON subset the
  pipeline exchanges (null/bool/number/string/array/object, the common
  escapes); insufficient-fuel and unsupported constructs parse as failure,
  matching the `except`-path of the source.
* `str.replace` (stdlib) is modelled by `replaceAll` on `List Char`
  (global left-to-right non-overlapping replacement, non-empty pattern),
  and `str.strip()` by `stripChars` (ASCII whitespace).
-/

/-- Model of a Python value as exchanged by the pipeline (JSON-compatible
dynamic values).  `num` covers both `int` and `float`, modelled exactly. -/
inductive PyVal : Type where
  | none : PyVal
  | bool : Bool → PyVal
  | num : ℚ → PyVal
  | str : String → PyVal
  | list : List PyVal → PyVal
  | dict : List (String × PyVal) → PyVal

/-- A Python dict with string keys (association list, first key wins, as
produced by dict literals in the source). -/
abbrev PyDict := List (String × PyVal)

/-- Model of `d.get(k)` returning `Option`: first binding of key `k`. -/
def dictLookup (d : PyDict) (k : String) : Option PyVal :=
  (d.find? (fun kv => kv.1 == k)).map (fun kv => kv.2)

/-- Model of Python `d.get(k, default)`. -/
def dictGet (d : PyDict) (k : String) (default : PyVal) : PyVal :=
  (dictLookup d k).getD default

/-- Model of the Python comparison `v <= 0` on a dynamic value: defined for
numbers and booleans (`bool` is an `int` subclass in Python, `True = 1`,
`False = 0`); any other operand raises `TypeError`, modelled as `.error`. -/
def pyLeZero : PyVal → Except Unit Bool
  | .num q => .ok (decide (q ≤ 0))
  | .bool b => .ok (b == false)
  | _ => .error ()

/-- A qualification verdict: the dict `{"qualified": ..., "reason": ...}`
returned by `check_qualification_constraints`. -/
structure Verdict : Type where
  qualified : Bool
  reason : String
  deriving DecidableEq

/-- Embedding of `AgentOrchestrator.check_qualification_constraints`
(src/ai_engine.py lines 147-165): look up `budget` defaulting to `0`;
reject when `budget <= 0`; qualify otherwise; if the comparison itself
raises (non-numeric budget), the `except` branch fails open. -/
def check_qualification_constraints (rfp_data : PyDict) : Verdict :=
  match pyLeZero (dictGet rfp_data "budget" (.num 0)) with
  | .ok true => ⟨false, "Budget not specified or invalid"⟩
  | .ok false => ⟨true, "Meets all qualification criteria"⟩
  | .error _ => ⟨true, "Constraint check failed, proceeding with analysis"⟩

/-- Rounding to 2 decimal places, the model of Python `round(x, 2)` on the
exact (`ℚ`) number model: nearest multiple of `1/100`. -/
def round2 (q : ℚ) : ℚ := (⌊q * 100 + 1 / 2⌋ : ℚ) / 100

/-- Embedding of `AgentOrchestrator.calculate_win_probability`
(src/ai_engine.py lines 167-175): `base = match_score * 0.7`; `+15` when
`margin > 18`, else `-10` when `margin < 10`; then
`max(0, min(round(base, 2), 100.0))`. -/
def calculate_win_probability (match_score margin : ℚ) : ℚ :=
  let base_prob := match_score * (7 / 10)
  let base_prob :=
    if margin > 18 then base_prob + 15
    else if margin < 10 then base_prob - 10
    else base_prob
  max 0 (min (round2 base_prob) 100)

/-- The win-probability formula in the order the specification words it
(§4.4): adjust the base, clamp to `[0,100]`, then round to 2 decimals. -/
def winProbabilitySpec (matchScore marginPercent : ℚ) : ℚ :=
  let base := matchScore * (7 / 10)
  let base :=
    if marginPercent > 18 then base + 15
    else if marginPercent < 10 then base - 10
    else base
  round2 (max 0 (min base 100))

/-! ### Text processing: models of `str.replace`, `str.strip`, `json.loads` -/

/-- Prefix test on character lists: does `pat` occur at the head of `s`? -/
def matchesAt : List Char → List Char → Bool
  | [], _ => true
  | _ :: _, [] => false
  | p :: ps, c :: cs => p == c && matchesAt ps cs

/-- Fuel-driven worker for `replaceAll`; the fuel (initialised with the
subject's length, which always suffices) keeps the recursion structural. -/
def replaceAllAux (pat rep : List Char) : Nat → List Char → List Char
  | _, [] => []
  | 0, s => s
  | fuel + 1, c :: rest =>
    if !pat.isEmpty && matchesAt pat (c :: rest) then
      rep ++ replaceAllAux pat rep fuel (rest.drop (pat.length - 1))
    else c :: replaceAllAux pat rep fuel rest

/-- Model of Python `s.replace(pat, rep)` for a non-empty pattern: global,
left-to-right, non-overlapping substring replacement. -/
def replaceAll (pat rep s : List Char) : List Char :=
  replaceAllAux pat rep s.length s

/-- ASCII whitespace, the characters stripped by the model of `str.strip()`. -/
def isWs (c : Char) : Bool := c == ' ' || c == '\t' || c == '\n' || c == '\r'

/-- Model of Python `s.strip()`: drop leading and trailing whitespace. -/
def stripChars (s : List Char) : List Char :=
  ((s.dropWhile isWs).reverse.dropWhile isWs).reverse

/-- The characters of the Markdown fence marker "```json". -/
def fenceJson : List Char := "```json".data

/-- The characters of the Markdown fence marker "```". -/
def fence : List Char := "```".data

/-- The response sanitisation shared verbatim by both agents
(src/ai_engine.py lines 231 and 284):
`response.text.replace("```json", "").replace("```", "").strip()`. -/
def cleanResponse (s : String) : String :=
  (stripChars (replaceAll fence [] (replaceAll fenceJson [] s.data))).asString

/-- Skip JSON whitespace. -/
def skipWs : List Char → List Char := List.dropWhile isWs

/-- Accumulate a digit run into a natural number. -/
def digitsToNat : List Char → Nat → Nat
  | [], acc => acc
  | c :: cs, acc => digitsToNat cs (acc * 10 + (c.toNat - 48))

/-- Parse a JSON number (optional sign, digits, optional fraction; the
exponent form is not needed by the pipeline and parses as failure). -/
def parseNumber (s : List Char) : Except Unit (PyVal × List Char) :=
  let signed := match s with | '-' :: r => (true, r) | _ => (false, s)
  let ds := signed.2.takeWhile Char.isDigit
  let r1 := signed.2.dropWhile Char.isDigit
  if ds = [] then .error ()
  else
    match r1 with
    | '.' :: r2 =>
      let fs := r2.takeWhile Char.isDigit
      let r3 := r2.dropWhile Char.isDigit
      if fs = [] then .error ()
      else
        let q : ℚ := (digitsToNat ds 0 : ℚ) + (digitsToNat fs 0 : ℚ) / ((10 : ℚ) ^ fs.length)
        .ok (.num (if signed.1 then -q else q), r3)
    | _ => .ok (.num (if signed.1 then -(digitsToNat ds 0 : ℚ) else (digitsToNat ds 0 : ℚ)), r1)

/-- Translate a JSON string escape character. -/
def unescape (c : Char) : Char :=
  if c == 'n' then '\n' else if c == 't' then '\t' else if c == 'r' then '\r' else c

/-- Scan the body of a JSON string literal up to its closing quote. -/
def parseStrAux : List Char → Option (List Char × List Char)
  | [] => Option.none
  | '"' :: rest => some ([], rest)
  | '\\' :: c :: rest =>
    match parseStrAux rest with
    | some (cs, r) => some (unescape c :: cs, r)
    | Option.none => Option.none
  | c :: rest =>
    match parseStrAux rest with
    | some (cs, r) => some (c :: cs, r)
    | Option.none => Option.none

/-- Parser modes: a single value, the items of an array, or the members of
an object (with the accumulated elements). -/
inductive PMode : Type where
  | value : PMode
  | arrayItems : List PyVal → PMode
  | objectItems : List (String × PyVal) → PMode

/-- Recursive-descent JSON parser, structurally recursive on its fuel. -/
def parseCore : Nat → PMode → List Char → Except Unit (PyVal × List Char)
  | 0, _, _ => .error ()
  | fuel + 1, .value, s =>
    match skipWs s with
    | 'n' :: 'u' :: 'l' :: 'l' :: r => .ok (.none, r)
    | 't' :: 'r' :: 'u' :: 'e' :: r => .ok (.bool true, r)
    | 'f' :: 'a' :: 'l' :: 's' :: 'e' :: r => .ok (.bool false, r)
    | '"' :: r =>
      match parseStrAux r with
      | some (cs, r') => .ok (.str cs.asString, r')
      | Option.none => .error ()
    | '[' :: r =>
      match skipWs r with
      | ']' :: r' => .ok (.list [], r')
      | r' => parseCore fuel (.arrayItems []) r'
    | '\x7b' :: r =>
      match skipWs r with
      | '\x7d' :: r' => .ok (.dict [], r')
      | r' => parseCore fuel (.objectItems []) r'
    | s' => parseNumber s'
  | fuel + 1, .arrayItems acc, s =>
    match parseCore fuel .value s with
    | .error _ => .error ()
    | .ok (v, r) =>
      match skipWs r with
      | ',' :: r' => parseCore fuel (.arrayItems (acc ++ [v])) r'
      | ']' :: r' => .ok (.list (acc ++ [v]), r')
      | _ => .error ()
  | fuel + 1, .objectItems acc, s =>
    match skipWs s with
    | '"' :: r =>
      match parseStrAux r with
      | some (k, r1) =>
        match skipWs r1 with
        | ':' :: r2 =>
          match parseCore fuel .value r2 with
          | .error _ => .error ()
          | .ok (v, r3) =>
            match skipWs r3 with
            | ',' :: r4 => parseCore fuel (.objectItems (acc ++ [(k.asString, v)])) r4
            | '\x7d' :: r4 => .ok (.dict (acc ++ [(k.asString, v)]), r4)
            | _ => .error ()
        | _ => .error ()
      | Option.none => .error ()
    | _ => .error ()

/-- Model of Python `json.loads`: parse one JSON value and require at most
trailing whitespace after it; any parse failure is the raised
`JSONDecodeError`, modelled as `.error`. -/
def jsonLoads (s : String) : Except Unit PyVal :=
  match parseCore (2 * s.length + 4) .value s.data with
  | .ok (v, r) => if skipWs r = [] then .ok v else .error ()
  | .error _ => .error ()

/-! ### The two LLM agents -/

/-- The completion-client capability: `complete(prompt) → text`, which may
fail with any invocation error (network, auth, rate limit, service). -/
abbrev Client := String → Except Unit String

/-- Schematic model of Python `str()` as used by the f-string prompt
interpolations: exact on strings, schematic on other values.  No claim
depends on prompt text — the completion client is universally quantified
wherever a prompt is consumed. -/
def pyDisplay : PyVal → String
  | .none => "None"
  | .bool true => "True"
  | .bool false => "False"
  | .num q => toString q
  | .str s => s
  | .list _ => "[...]"
  | .dict _ => "\x7b...\x7d"

/-- The extraction prompt of `TechnicalAgent.analyze_specs`
(src/ai_engine.py lines 186-226), with the SKU repository text and the RFP
text interpolated. -/
def technicalPrompt (sku_data rfp_text : String) : String :=
  "\n        You are an expert Industrial Technical Engineer.\n        \n        OBJECTIVE: \n        Map the Client's RFP requirements to our Internal Data Schema.\n        \n        --- INTERNAL ADMIN DATA SCHEMA (Our Attributes) ---\n        1. product_type (e.g., Widget, Cable, Gadget)\n        2. voltage_rating (e.g., 415V, 11kV)\n        3. material (e.g., Steel, Copper, XLPE)\n        4. durability_rating (e.g., Medium, High, IP67)\n        5. compliance_standards (e.g., ISO 9001, IEC 60502)\n        \n        --- INTERNAL PRODUCT REPOSITORY (Reference Data) ---\n        "
  ++ sku_data ++
  "\n        ----------------------------------------------------\n\n        --- CLIENT RFP TEXT ---\n        "
  ++ rfp_text ++
  "\n        -----------------------\n\n        INSTRUCTIONS:\n        1. Read the Client RFP.\n        2. Extract values for the 5 Schema Attributes listed above. If not specified, use \"Not Specified\".\n        3. Compare these extracted values against the Repository to find the best matching SKU IDs.\n        4. Calculate a match score (0-100) based on how well the extracted specs match the repository SKUs. Consider exact matches, partial matches, and compatibility. For example, if voltage_rating matches exactly and compliance_standards overlap, give high score.\n\n        OUTPUT FORMAT (Raw JSON Only):\n        \x7b\x7b\n            \"standardized_specs\": \x7b\x7b\n                \"product_type\": \"...\",\n                \"voltage_rating\": \"...\",\n                \"material\": \"...\",\n                \"durability_rating\": \"...\",\n                \"compliance_standards\": \"...\"\n            \x7d\x7d,\n            \"matched_skus\": [\"P00X\", \"P00Y\"],\n            \"spec_match_score\": 85.5,\n            \"match_reasoning\": \"Brief explanation of why these SKUs fit.\"\n        \x7d\x7d\n        "

/-- The pricing prompt of `PricingAgent.calculate_costs`
(src/ai_engine.py lines 250-280), with the pricing repository text, the
matched SKUs and the client specs interpolated. -/
def pricingPrompt (pricing_data : String) (matched_skus specs : PyVal) : String :=
  "\n        You are a Senior Pricing Analyst.\n        \n        TASK: Generate a commercial bid based on our Admin Pricing Rules.\n        \n        --- ADMIN PRICING REPOSITORY ---\n        "
  ++ pricing_data ++
  "\n        --------------------------------\n\n        INPUTS:\n        - Target SKUs: "
  ++ pyDisplay matched_skus ++
  "\n        - Client Specs: "
  ++ pyDisplay specs ++
  "\n\n        INSTRUCTIONS:\n        1. Lookup Base Price for each SKU in the repository.\n        2. Apply 'Service Fees' if the Specs imply testing (e.g., if 'compliance_standards' mentions IEC, add IEC fees).\n        3. Calculate a Final Bid with a 20% margin.\n\n        OUTPUT FORMAT (Raw JSON Only):\n        \x7b\x7b\n            \"breakdown\": \x7b\x7b\n                \"material_cost\": <float>,\n                \"service_fees\": <float>,\n                \"applied_fees_list\": [\"Fee Name 1\", \"Fee Name 2\"]\n            \x7d\x7d,\n            \"total_cost_internal\": <float>,\n            \"total_bid_value\": <float>,\n            \"margin\": <float percent>,\n            \"currency\": \"USD\"\n        \x7d\x7d\n        "

/-- The degraded ExtractionResult returned by the Technical Agent's
`except` branch (src/ai_engine.py lines 235-242). -/
def degradedTechResult : PyVal :=
  .dict [("spec_match_score", .num 0),
         ("standardized_specs", .dict [
            ("product_type", .str "Error"), ("voltage_rating", .str "Error"),
            ("material", .str "Error"), ("durability_rating", .str "Error"),
            ("compliance_standards", .str "Error")]),
         ("matched_skus", .list [])]

/-- Embedding of `TechnicalAgent.analyze_specs` (src/ai_engine.py lines
182-242): build the prompt, invoke the client, sanitise the response text
and `json.loads` it; any failure in the `try` block yields the degraded
result. -/
def analyze_specs (client : Client) (sku_data : String) (rfp_text : String) : PyVal :=
  match client (technicalPrompt sku_data rfp_text) with
  | .error _ => degradedTechResult
  | .ok txt =>
    match jsonLoads (cleanResponse txt) with
    | .ok v => v
    | .error _ => degradedTechResult

/-- The degraded PricingResult returned by the Pricing Agent's `except`
branch (src/ai_engine.py line 288). -/
def degradedPricingResult : PyVal :=
  .dict [("margin", .num 0), ("total_bid_value", .num 0)]

/-- Embedding of `PricingAgent.calculate_costs` (src/ai_engine.py lines
249-288): same invoke/sanitise/parse structure as the Technical Agent, with
its own degraded fallback. -/
def calculate_costs (client : Client) (pricing_data : String)
    (matched_skus specs : PyVal) : PyVal :=
  match client (pricingPrompt pricing_data matched_skus specs) with
  | .error _ => degradedPricingResult
  | .ok txt =>
    match jsonLoads (cleanResponse txt) with
    | .ok v => v
    | .error _ => degradedPricingResult

/-! ### The orchestrator -/

/-- Model of the attribute call `v.get(k, default)` on a dynamic value:
raises `AttributeError` (modelled `.error`) when `v` is not a dict. -/
def pyGet (v : PyVal) (k : String) (default : PyVal) : Except Unit PyVal :=
  match v with
  | .dict d => .ok (dictGet d k default)
  | _ => .error ()

/-- Model of using a dynamic value in Python arithmetic or numeric
comparison (`x * 0.7`, `x > 18`, `x >= 75`): numbers and booleans coerce
(`True = 1`, `False = 0`), any other type raises `TypeError`. -/
def pyToNum : PyVal → Except Unit ℚ
  | .num q => .ok q
  | .bool b => .ok (if b then 1 else 0)
  | _ => .error ()

/-- The recommendation tiering of `run_analysis` (src/ai_engine.py lines
87-98) as a function of (win_probability, spec_match_score): the label and
its rationale. -/
def recommendation (win_probability spec_match_score : ℚ) : String × String :=
  if win_probability ≥ 70 ∧ spec_match_score ≥ 75 then
    ("SELECT - High confidence recommendation",
     "Excellent match with strong win probability and high specification alignment.")
  else if win_probability ≥ 50 ∧ spec_match_score ≥ 60 then
    ("CONSIDER - Moderate confidence",
     "Good potential with reasonable win probability and acceptable specification match.")
  else if win_probability ≥ 30 then
    ("REVIEW - Low confidence",
     "Marginal win probability, requires careful evaluation of competition and pricing.")
  else
    ("REJECT - Not recommended",
     "Low win probability and poor specification match suggest pursuing other opportunities.")

/-- The suggestion generation of `run_analysis` (src/ai_engine.py lines
100-107): conditionally append the two fixed suggestions in order; default
to the single generic positive suggestion when none triggered. -/
def suggestionsFor (spec_match_score win_probability : ℚ) : List PyVal :=
  let s :=
    (if spec_match_score < 70 then
      [PyVal.str "Consider adjusting technical specifications to better match available product portfolio"]
     else []) ++
    (if win_probability < 60 then
      [PyVal.str "Review pricing strategy - current margin may be too aggressive for market conditions"]
     else [])
  if s.isEmpty then
    [PyVal.str "Proposal appears well-aligned with requirements - focus on competitive pricing and delivery timeline"]
  else s

/-- The short-circuit AnalysisResult returned for a disqualified RFP
(src/ai_engine.py lines 57-66). -/
def rejectResult (reason : String) : PyDict :=
  [("spec_match_score", .num 0),
   ("win_probability", .num 0),
   ("extracted_specs", .dict []),
   ("financial_analysis", .dict []),
   ("recommendation", .str "REJECT - Does not meet qualification criteria"),
   ("recommendation_reason", .str reason),
   ("suggestions", .list [.str "Review qualification criteria with admin",
                          .str "Consider adjusting RFP requirements"]),
   ("agent_status", .str "completed")]

/-- The fixed top-level fallback AnalysisResult of the orchestrator's
`except` branch (src/ai_engine.py lines 124-145). -/
def fallbackResult : PyDict :=
  [("spec_match_score", .num 50),
   ("win_probability", .num 45),
   ("extracted_specs", .dict [
      ("product_type", .str "Analysis Failed"),
      ("voltage_rating", .str "Analysis Failed"),
      ("material", .str "Analysis Failed"),
      ("durability_rating", .str "Analysis Failed"),
      ("compliance_standards", .str "Analysis Failed")]),
   ("financial_analysis", .dict [
      ("breakdown", .dict [("material_cost", .num 0), ("service_fees", .num 0),
                           ("applied_fees_list", .list [])]),
      ("total_cost_internal", .num 0),
      ("total_bid_value", .num 0),
      ("margin", .num 20),
      ("currency", .str "USD")]),
   ("recommendation", .str "REVIEW - Low confidence"),
   ("recommendation_reason", .str "AI analysis failed, using fallback values. Manual review recommended."),
   ("suggestions", .list [.str "Re-run AI analysis when service is available",
                          .str "Manually review RFP requirements against company capabilities"]),
   ("agent_status", .str "completed")]

/-- The `rfp_text` f-string of `run_analysis` (src/ai_engine.py line 69). -/
def rfpText (rfp_data : PyDict) : String :=
  "Title: " ++ pyDisplay (dictGet rfp_data "title" (.str "")) ++
  "\nDescription: " ++ pyDisplay (dictGet rfp_data "description" (.str ""))

/-- The `try` block of `run_analysis` (src/ai_engine.py lines 71-119):
every operation that can raise is sequenced in `Except`, in source order
(the duplicated `.get` calls of the final dict literal reuse the values
already read, which are identical because the getters are pure). -/
def analysisBody (client : Client) (sku_data pricing_data : String)
    (rfp_data : PyDict) : Except Unit PyDict :=
  let tech_result := analyze_specs client sku_data (rfpText rfp_data)
  match pyGet tech_result "matched_skus" (.list []) with
  | .error e => .error e
  | .ok matched =>
    match pyGet tech_result "standardized_specs" (.dict []) with
    | .error e => .error e
    | .ok specs =>
      let pricing_result := calculate_costs client pricing_data matched specs
      match pyGet tech_result "spec_match_score" (.num 0) with
      | .error e => .error e
      | .ok spec_match_score_v =>
        match pyGet pricing_result "margin" (.num 20) with
        | .error e => .error e
        | .ok margin_v =>
          match pyToNum spec_match_score_v, pyToNum margin_v with
          | .ok spec_match_score, .ok margin =>
            let win_probability := calculate_win_probability spec_match_score margin
            let rec_pair := recommendation win_probability spec_match_score
            let suggs := suggestionsFor spec_match_score win_probability
            .ok [("spec_match_score", spec_match_score_v),
                 ("extracted_specs", specs),
                 ("matched_skus", matched),
                 ("financial_analysis", pricing_result),
                 ("win_probability", .num win_probability),
                 ("recommendation", .str rec_pair.1),
                 ("recommendation_reason", .str rec_pair.2),
                 ("suggestions", .list suggs),
                 ("agent_status", .str "completed")]
          | _, _ => .error ()

/-- Embedding of `AgentOrchestrator.run_analysis` (src/ai_engine.py lines
50-145): optional qualification gate with short-circuit rejection, then the
`try` block, then the fixed fallback on any escaped fault. -/
def run_analysis (client : Client) (sku_data pricing_data : String)
    (rfp_data : PyDict) (check_constraints : Bool) : PyDict :=
  if check_constraints && !(check_qualification_constraints rfp_data).qualified then
    rejectResult (check_qualification_constraints rfp_data).reason
  else
    match analysisBody client sku_data pricing_data rfp_data with
    | .ok result => result
    | .error _ => fallbackResult

/-! ### Helper lemmas -/

theorem round2_mono {a b : ℚ} (h : a ≤ b) : round2 a ≤ round2 b := by
  unfold round2
  have : (⌊a * 100 + 1 / 2⌋ : ℤ) ≤ ⌊b * 100 + 1 / 2⌋ :=
    Int.floor_le_floor (by linarith)
  have h2 : ((⌊a * 100 + 1 / 2⌋ : ℤ) : ℚ) ≤ ((⌊b * 100 + 1 / 2⌋ : ℤ) : ℚ) := by
    exact_mod_cast this
  linarith

theorem round2_zero : round2 0 = 0 := by
  unfold round2
  norm_num

theorem round2_hundred : round2 100 = 100 := by
  unfold round2
  have : ⌊(100 : ℚ) * 100 + 1 / 2⌋ = 10000 := by
    apply Int.floor_eq_iff.mpr
    constructor <;> norm_num
  rw [this]
  norm_num

theorem matchesAt_length {pat s : List Char} (h : matchesAt pat s = true) :
    pat.length ≤ s.length := by
  induction pat generalizing s with
  | nil => simp
  | cons p ps ih =>
    cases s with
    | nil => simp [matchesAt] at h
    | cons c cs =>
      simp only [matchesAt, Bool.and_eq_true] at h
      simpa using Nat.succ_le_succ (ih h.2)

theorem matchesAt_append (pat s : List Char) : matchesAt pat (pat ++ s) = true := by
  induction pat with
  | nil => rfl
  | cons p ps ih => simp [matchesAt, ih]

theorem replaceAllAux_stable (pat rep : List Char) :
    ∀ f₁ : Nat, ∀ s : List Char, ∀ f₂ : Nat,
      s.length ≤ f₁ → s.length ≤ f₂ →
      replaceAllAux pat rep f₁ s = replaceAllAux pat rep f₂ s := by
  intro f₁
  induction f₁ with
  | zero =>
    intro s f₂ h₁ _
    have hs : s = [] := List.length_eq_zero.mp (Nat.le_zero.mp h₁)
    subst hs
    cases f₂ <;> rfl
  | succ f ih =>
    intro s f₂ h₁ h₂
    cases s with
    | nil => cases f₂ <;> rfl
    | cons c rest =>
      cases f₂ with
      | zero => simp at h₂
      | succ f₂' =>
        have hr₁ : rest.length ≤ f := by
          simpa using Nat.le_of_succ_le_succ h₁
        have hr₂ : rest.length ≤ f₂' := by
          simpa using Nat.le_of_succ_le_succ h₂
        have hd₁ : (rest.drop (pat.length - 1)).length ≤ f := by
          rw [List.length_drop]; omega
        have hd₂ : (rest.drop (pat.length - 1)).length ≤ f₂' := by
          rw [List.length_drop]; omega
        simp only [replaceAllAux]
        by_cases hc : (!pat.isEmpty && matchesAt pat (c :: rest)) = true
        · rw [if_pos hc, if_pos hc, ih _ _ hd₁ hd₂]
        · rw [if_neg hc, if_neg hc, ih _ _ hr₁ hr₂]

theorem replaceAll_cons (pat rep : List Char) (c : Char) (t : List Char) :
    replaceAll pat rep (c :: t) =
      if !pat.isEmpty && matchesAt pat (c :: t) then
        rep ++ replaceAll pat rep (t.drop (pat.length - 1))
      else c :: replaceAll pat rep t := by
  show replaceAllAux pat rep (t.length + 1) (c :: t) = _
  rw [replaceAllAux]
  by_cases hc : (!pat.isEmpty && matchesAt pat (c :: t)) = true
  · rw [if_pos hc, if_pos hc]
    have : replaceAllAux pat rep t.length (t.drop (pat.length - 1)) =
        replaceAll pat rep (t.drop (pat.length - 1)) := by
      apply replaceAllAux_stable
      · rw [List.length_drop]; omega
      · exact le_refl _
    rw [this]
  · rw [if_neg hc, if_neg hc]
    rfl

theorem replaceAll_not_mem {p : Char} (ps rep : List Char)
    {s : List Char} (h : p ∉ s) : replaceAll (p :: ps) rep s = s := by
  induction s with
  | nil => rfl
  | cons c t ih =>
    simp only [List.mem_cons, not_or] at h
    have hpc : (p == c) = false := beq_eq_false_iff_ne.mpr h.1
    rw [replaceAll_cons, if_neg (by simp [matchesAt, hpc]), ih h.2]

theorem replaceAll_short {pat : List Char} (rep : List Char) {s : List Char}
    (h : s.length < pat.length) : replaceAll pat rep s = s := by
  induction s with
  | nil => rfl
  | cons c t ih =>
    rw [replaceAll_cons, if_neg, ih (Nat.lt_of_succ_lt h)]
    intro hc
    rw [Bool.and_eq_true] at hc
    exact absurd (matchesAt_length hc.2) (by simpa using h)

theorem replaceAll_append_left {p : Char} (ps rep : List Char)
    {a : List Char} (b : List Char) (h : p ∉ a) :
    replaceAll (p :: ps) rep (a ++ b) = a ++ replaceAll (p :: ps) rep b := by
  induction a with
  | nil => simp
  | cons c t ih =>
    simp only [List.mem_cons, not_or] at h
    have hpc : (p == c) = false := beq_eq_false_iff_ne.mpr h.1
    rw [List.cons_append, replaceAll_cons, if_neg (by simp [matchesAt, hpc]),
      ih h.2, List.cons_append]

theorem replaceAll_self_append (pat s : List Char) (hne : pat ≠ []) :
    replaceAll pat [] (pat ++ s) = replaceAll pat [] s := by
  cases pat with
  | nil => exact absurd rfl hne
  | cons p ps =>
    rw [List.cons_append, replaceAll_cons, if_pos]
    · simp only [List.nil_append, List.length_cons, Nat.add_sub_cancel]
      rw [List.drop_left ps s]
    · simp only [List.isEmpty_cons, Bool.not_false, Bool.true_and]
      rw [← List.cons_append]
      exact matchesAt_append (p :: ps) s

theorem stripChars_cons_nl (s : List Char) : stripChars ('\n' :: s) = stripChars s := by
  unfold stripChars
  rw [List.dropWhile_cons_of_pos (by rfl)]

theorem stripChars_append_nl (s : List Char) : stripChars (s ++ ['\n']) = stripChars s := by
  unfold stripChars
  rw [List.dropWhile_append]
  rcases hd : s.dropWhile isWs with _ | ⟨c, t⟩
  · have hnl : List.dropWhile isWs ['\n'] = [] := rfl
    simp [hnl]
  · simp only [List.isEmpty_cons, if_false, Bool.false_eq_true]
    rw [List.reverse_append]
    simp only [List.reverse_cons, List.reverse_nil, List.nil_append,
      List.singleton_append]
    rw [List.dropWhile_cons_of_pos (by rfl)]

theorem fenceJson_eq : fenceJson = '`' :: "``json".data := rfl

theorem fence_eq : fence = '`' :: "``".data := rfl

theorem cleanResponse_fenced (t : String) (h : '`' ∉ t.data) :
    cleanResponse ("```json\n" ++ t ++ "\n```") = cleanResponse t := by
  unfold cleanResponse
  congr 1
  have hdata : ("```json\n" ++ t ++ "\n```").data =
      fenceJson ++ ('\n' :: (t.data ++ ('\n' :: fence))) := by
    simp only [String.data_append]
    show (fenceJson ++ ['\n']) ++ t.data ++ ('\n' :: fence) = _
    simp [List.append_assoc]
  rw [hdata, replaceAll_self_append fenceJson _ (by rw [fenceJson_eq]; simp)]
  have hsplit : '\n' :: (t.data ++ ('\n' :: fence)) =
      ('\n' :: t.data ++ ['\n']) ++ fence := by simp
  rw [hsplit]
  have hnot : '`' ∉ ('\n' :: t.data ++ ['\n']) := by
    simp [h]
  rw [fenceJson_eq, replaceAll_append_left _ _ _ hnot, ← fenceJson_eq]
  have hshort : replaceAll fenceJson [] fence = fence :=
    replaceAll_short _ (by rw [fenceJson_eq, fence_eq]; decide)
  rw [hshort]
  rw [fence_eq, replaceAll_append_left _ _ _ hnot, ← fence_eq]
  have hself : replaceAll fence [] fence = [] := by
    have h2 : replaceAll fence [] (fence ++ []) = replaceAll fence [] [] :=
      replaceAll_self_append fence [] (by rw [fence_eq]; simp)
    simpa using h2
  rw [hself, List.append_nil]
  have hL : stripChars ('\n' :: t.data ++ ['\n']) = stripChars t.data := by
    rw [List.cons_append, stripChars_cons_nl, stripChars_append_nl]
  rw [hL]
  rw [fenceJson_eq, replaceAll_not_mem _ _ h]
  rw [fence_eq, replaceAll_not_mem _ _ h]

theorem check_qual_num (rfp : PyDict) (b : ℚ)
    (hb : dictGet rfp "budget" (.num 0) = .num b) :
    check_qualification_constraints rfp =
      if b ≤ 0 then ⟨false, "Budget not specified or invalid"⟩
      else ⟨true, "Meets all qualification criteria"⟩ := by
  unfold check_qualification_constraints
  rw [hb]
  by_cases h : b ≤ 0
  · simp [pyLeZero, h]
  · simp [pyLeZero, h]

theorem check_qual_err (rfp : PyDict)
    (h : pyLeZero (dictGet rfp "budget" (.num 0)) = .error ()) :
    check_qualification_constraints rfp =
      ⟨true, "Constraint check failed, proceeding with analysis"⟩ := by
  unfold check_qualification_constraints
  rw [h]

theorem dictLookup_rejectResult_status (r : String) :
    dictLookup (rejectResult r) "agent_status" = some (.str "completed") := by
  simp [dictLookup, rejectResult]

theorem dictLookup_fallback_status :
    dictLookup fallbackResult "agent_status" = some (.str "completed") := by
  simp [dictLookup, fallbackResult]

theorem analysisBody_ok (client : Client) (sku_data pricing_data : String)
    (rfp_data : PyDict) (d : PyDict)
    (h : analysisBody client sku_data pricing_data rfp_data = .ok d) :
    ∃ (smsv specs matched pricing : PyVal) (sms margin : ℚ),
      d = [("spec_match_score", smsv),
           ("extracted_specs", specs),
           ("matched_skus", matched),
           ("financial_analysis", pricing),
           ("win_probability", .num (calculate_win_probability sms margin)),
           ("recommendation", .str (recommendation (calculate_win_probability sms margin) sms).1),
           ("recommendation_reason", .str (recommendation (calculate_win_probability sms margin) sms).2),
           ("suggestions", .list (suggestionsFor sms (calculate_win_probability sms margin))),
           ("agent_status", .str "completed")] := by
  unfold analysisBody at h
  simp only [] at h
  cases hm : pyGet (analyze_specs client sku_data (rfpText rfp_data)) "matched_skus" (PyVal.list []) with
  | error e => simp only [hm] at h; exact absurd h (by simp)
  | ok matched =>
    simp only [hm] at h
    cases hs : pyGet (analyze_specs client sku_data (rfpText rfp_data)) "standardized_specs" (PyVal.dict []) with
    | error e => simp only [hs] at h; exact absurd h (by simp)
    | ok specs =>
      simp only [hs] at h
      cases hv : pyGet (analyze_specs client sku_data (rfpText rfp_data)) "spec_match_score" (PyVal.num 0) with
      | error e => simp only [hv] at h; exact absurd h (by simp)
      | ok smsv =>
        simp only [hv] at h
        cases hg : pyGet (calculate_costs client pricing_data matched specs) "margin" (PyVal.num 20) with
        | error e => simp only [hg] at h; exact absurd h (by simp)
        | ok mv =>
          simp only [hg] at h
          cases hn : pyToNum smsv with
          | error e => simp only [hn] at h; exact absurd h (by simp)
          | ok sms =>
            simp only [hn] at h
            cases hq : pyToNum mv with
            | error e => simp only [hq] at h; exact absurd h (by simp)
            | ok margin =>
              simp only [hq] at h
              injection h with h
              exact ⟨_, _, _, _, _, _, h.symm⟩

theorem run_analysis_reject (client : Client) (sku_data pricing_data : String)
    (rfp_data : PyDict)
    (h : (check_qualification_constraints rfp_data).qualified = false) :
    run_analysis client sku_data pricing_data rfp_data true =
      rejectResult (check_qualification_constraints rfp_data).reason := by
  unfold run_analysis
  rw [h]
  simp

theorem run_analysis_go (client : Client) (sku_data pricing_data : String)
    (rfp_data : PyDict) (cc : Bool)
    (h : cc = false ∨ (check_qualification_constraints rfp_data).qualified = true) :
    run_analysis client sku_data pricing_data rfp_data cc =
      match analysisBody client sku_data pricing_data rfp_data with
      | .ok result => result
      | .error _ => fallbackResult := by
  unfold run_analysis
  rcases h with h | h
  · rw [h]; simp
  · rw [h]; simp

theorem round2_clamp_comm (b : ℚ) :
    max 0 (min (round2 b) 100) = round2 (max 0 (min b 100)) := by
  rcases le_or_lt b 0 with h0 | h0
  · have hb100 : b ≤ 100 := le_trans h0 (by norm_num)
    have hr : round2 b ≤ 0 := round2_zero ▸ round2_mono h0
    rw [min_eq_left hb100, max_eq_left h0, round2_zero,
      min_eq_left (le_trans hr (by norm_num)), max_eq_left hr]
  · rcases le_or_lt 100 b with h1 | h1
    · have hr : (100 : ℚ) ≤ round2 b := round2_hundred ▸ round2_mono h1
      rw [min_eq_right h1, max_eq_right (by norm_num : (0:ℚ) ≤ 100), round2_hundred,
        min_eq_right hr, max_eq_right (by norm_num : (0:ℚ) ≤ 100)]
    · have hr0 : (0 : ℚ) ≤ round2 b := round2_zero ▸ round2_mono h0.le
      have hr1 : round2 b ≤ 100 := round2_hundred ▸ round2_mono h1.le
      rw [min_eq_left h1.le, max_eq_right h0.le, min_eq_left hr1, max_eq_right hr0]

theorem suggestionsFor_ne_nil (sms w : ℚ) : suggestionsFor sms w ≠ [] := by
  unfold suggestionsFor
  by_cases h1 : sms < 70 <;> by_cases h2 : w < 60 <;> simp [h1, h2]

/-- C2: `calculate_win_probability` computes exactly the §4.4 formula — base
`matchScore * 0.7`, `+15` when margin > 18 else `-10` when margin < 10,
clamped to `[0,100]` and rounded to 2 decimals (the code rounds before
clamping; the two orders coincide) — and takes the four specified values. -/
theorem claim_C2 :
    (∀ matchScore marginPercent : ℚ,
      calculate_win_probability matchScore marginPercent =
        winProbabilitySpec matchScore marginPercent)
    ∧ calculate_win_probability 80 20 = 71
    ∧ calculate_win_probability 80 5 = 46
    ∧ calculate_win_probability 100 19 = 85
    ∧ calculate_win_probability 200 50 = 100 := by
  refine ⟨?_, ?_, ?_, ?_, ?_⟩
  · intro ms mg
    simp only [calculate_win_probability, winProbabilitySpec]
    exact round2_clamp_comm _
  · norm_num [calculate_win_probability, round2]
  · norm_num [calculate_win_probability, round2]
  · norm_num [calculate_win_probability, round2]
  · norm_num [calculate_win_probability, round2]

/-- C3: recommendation tiering is a total function of
(winProbability, matchScore): it equals the strictly ordered four-tier
chain of §4.4, every pair yields one of the four labels, and each boundary
value (70/75, 50/60, 30) resolves to the qualifying tier. -/
theorem claim_C3 :
    (∀ w m : ℚ,
      recommendation w m =
        if w ≥ 70 ∧ m ≥ 75 then
          ("SELECT - High confidence recommendation",
           "Excellent match with strong win probability and high specification alignment.")
        else if w ≥ 50 ∧ m ≥ 60 then
          ("CONSIDER - Moderate confidence",
           "Good potential with reasonable win probability and acceptable specification match.")
        else if w ≥ 30 then
          ("REVIEW - Low confidence",
           "Marginal win probability, requires careful evaluation of competition and pricing.")
        else
          ("REJECT - Not recommended",
           "Low win probability and poor specification match suggest pursuing other opportunities."))
    ∧ (∀ w m : ℚ,
        (recommendation w m).1 = "SELECT - High confidence recommendation"
        ∨ (recommendation w m).1 = "CONSIDER - Moderate confidence"
        ∨ (recommendation w m).1 = "REVIEW - Low confidence"
        ∨ (recommendation w m).1 = "REJECT - Not recommended")
    ∧ (recommendation 70 75).1 = "SELECT - High confidence recommendation"
    ∧ (recommendation 50 60).1 = "CONSIDER - Moderate confidence"
    ∧ (recommendation 30 0).1 = "REVIEW - Low confidence"
    ∧ (recommendation (2999 / 100) 100).1 = "REJECT - Not recommended" := by
  refine ⟨fun w m => rfl, ?_, ?_, ?_, ?_, ?_⟩
  · intro w m
    unfold recommendation
    split_ifs <;> simp
  · norm_num [recommendation]
  · norm_num [recommendation]
  · norm_num [recommendation]
  · norm_num [recommendation]

/-- C4: the qualification gate on a numeric (or absent, defaulting to 0)
budget: non-positive budgets are rejected with the fixed reason, positive
budgets qualify with the fixed reason. -/
theorem claim_C4 (rfp : PyDict) (b : ℚ)
    (hb : dictGet rfp "budget" (.num 0) = .num b) :
    (b ≤ 0 → check_qualification_constraints rfp =
      ⟨false, "Budget not specified or invalid"⟩)
    ∧ (0 < b → check_qualification_constraints rfp =
      ⟨true, "Meets all qualification criteria"⟩) := by
  constructor
  · intro h
    rw [check_qual_num rfp b hb, if_pos h]
  · intro h
    rw [check_qual_num rfp b hb, if_neg (not_le.mpr h)]

theorem claim_C4_witness :
    (check_qualification_constraints [("budget", PyVal.num (-3))] =
      ⟨false, "Budget not specified or invalid"⟩)
    ∧ (check_qualification_constraints [("title", PyVal.str "Cables")] =
      ⟨false, "Budget not specified or invalid"⟩)
    ∧ (check_qualification_constraints [("budget", PyVal.num 5000)] =
      ⟨true, "Meets all qualification criteria"⟩) :=
  ⟨(claim_C4 [("budget", PyVal.num (-3))] (-3) rfl).1 (by norm_num),
   (claim_C4 [("title", PyVal.str "Cables")] 0 rfl).1 (by norm_num),
   (claim_C4 [("budget", PyVal.num 5000)] 5000 rfl).2 (by norm_num)⟩

/-- C5: if evaluating the qualification rule itself raises (the budget
comparison is not defined for the stored value), the gate fails open with
qualified=true and the fixed could-not-complete reason; the embedding is a
total function, so no exception propagates. -/
theorem claim_C5 (rfp : PyDict)
    (h : pyLeZero (dictGet rfp "budget" (.num 0)) = .error ()) :
    check_qualification_constraints rfp =
      ⟨true, "Constraint check failed, proceeding with analysis"⟩ :=
  check_qual_err rfp h

theorem claim_C5_witness :
    pyLeZero (dictGet [("budget", PyVal.str "approx 10k")] "budget" (.num 0)) =
      .error ()
    ∧ check_qualification_constraints [("budget", PyVal.str "approx 10k")] =
      ⟨true, "Constraint check failed, proceeding with analysis"⟩ :=
  ⟨rfl, claim_C5 [("budget", PyVal.str "approx 10k")] rfl⟩

/-- C10: a budget value that is not comparable to 0 (None, a string) takes
the fail-open branch and qualifies, while an absent budget key defaults to
0 and is rejected. -/
theorem claim_C10 (rfpNone rfpStr rfpAbsent : PyDict) (s : String)
    (h1 : dictLookup rfpNone "budget" = some PyVal.none)
    (h2 : dictLookup rfpStr "budget" = some (PyVal.str s))
    (h3 : dictLookup rfpAbsent "budget" = Option.none) :
    check_qualification_constraints rfpNone =
      ⟨true, "Constraint check failed, proceeding with analysis"⟩
    ∧ check_qualification_constraints rfpStr =
      ⟨true, "Constraint check failed, proceeding with analysis"⟩
    ∧ check_qualification_constraints rfpAbsent =
      ⟨false, "Budget not specified or invalid"⟩ := by
  refine ⟨check_qual_err _ ?_, check_qual_err _ ?_, ?_⟩
  · unfold dictGet
    rw [h1]
    rfl
  · unfold dictGet
    rw [h2]
    rfl
  · rw [check_qual_num rfpAbsent 0 (by unfold dictGet; rw [h3]; rfl),
      if_pos le_rfl]

theorem claim_C10_witness :
    check_qualification_constraints [("budget", PyVal.none)] =
      ⟨true, "Constraint check failed, proceeding with analysis"⟩
    ∧ check_qualification_constraints [("budget", PyVal.str "TBD")] =
      ⟨true, "Constraint check failed, proceeding with analysis"⟩
    ∧ check_qualification_constraints [("title", PyVal.str "Switchgear")] =
      ⟨false, "Budget not specified or invalid"⟩ :=
  claim_C10 [("budget", PyVal.none)] [("budget", PyVal.str "TBD")]
    [("title", PyVal.str "Switchgear")] "TBD" rfl rfl rfl

/-- C9: fence stripping is global substring deletion, not fence-aware: both
agents run the same sanitiser, wrapping a backtick-free response in a
```json fence does not change the sanitised text (hence neither agent's
result), and fence markers inside JSON string values are deleted too. -/
theorem claim_C9 :
    (∀ t : String, '`' ∉ t.data →
      cleanResponse ("```json\n" ++ t ++ "\n```") = cleanResponse t)
    ∧ (∀ (sku_data rfp_text t : String), '`' ∉ t.data →
      analyze_specs (fun _ => .ok ("```json\n" ++ t ++ "\n```")) sku_data rfp_text =
        analyze_specs (fun _ => .ok t) sku_data rfp_text)
    ∧ (∀ (pricing_data : String) (skus specs : PyVal) (t : String), '`' ∉ t.data →
      calculate_costs (fun _ => .ok ("```json\n" ++ t ++ "\n```")) pricing_data skus specs =
        calculate_costs (fun _ => .ok t) pricing_data skus specs)
    ∧ cleanResponse "\x7b\"note\": \"see ``` marker\"\x7d" =
        "\x7b\"note\": \"see  marker\"\x7d" := by
  refine ⟨cleanResponse_fenced, ?_, ?_, rfl⟩
  · intro sku_data rfp_text t h
    simp only [analyze_specs]
    rw [cleanResponse_fenced t h]
  · intro pricing_data skus specs t h
    simp only [calculate_costs]
    rw [cleanResponse_fenced t h]

theorem claim_C9_witness :
    ('`' ∉ "\x7b\"a\": 1\x7d".data)
    ∧ cleanResponse ("```json\n" ++ "\x7b\"a\": 1\x7d" ++ "\n```") =
        cleanResponse "\x7b\"a\": 1\x7d" :=
  ⟨by decide, claim_C9.1 "\x7b\"a\": 1\x7d" (by decide)⟩

/-- C7 as stated is refuted by this counterexample: a successful completion
whose text parses as JSON but lacks every required key (the empty object)
is returned as-is by `analyze_specs`, not replaced by the degraded
ExtractionResult. -/
theorem claim_C7_counterexample :
    analyze_specs (fun _ => .ok "\x7b\x7d") "sku" "rfp" = .dict []
    ∧ PyVal.dict [] ≠ degradedTechResult := by
  refine ⟨rfl, ?_⟩
  intro h
  rw [degradedTechResult] at h
  injection h with h
  exact List.noConfusion h

/-- C7 (amended): `analyze_specs` never throws; it returns the degraded
ExtractionResult (score 0, all five fields "Error", empty SKU list) exactly
when the client invocation fails or the sanitised response text does not
parse as JSON; when parsing succeeds the parsed value is returned as-is,
even if required keys are absent. -/
theorem claim_C7 (client : Client) (sku_data rfp_text : String) :
    (client (technicalPrompt sku_data rfp_text) = .error () →
      analyze_specs client sku_data rfp_text = degradedTechResult)
    ∧ (∀ txt, client (technicalPrompt sku_data rfp_text) = .ok txt →
        jsonLoads (cleanResponse txt) = .error () →
        analyze_specs client sku_data rfp_text = degradedTechResult)
    ∧ (∀ txt v, client (technicalPrompt sku_data rfp_text) = .ok txt →
        jsonLoads (cleanResponse txt) = .ok v →
        analyze_specs client sku_data rfp_text = v) := by
  refine ⟨?_, ?_, ?_⟩
  · intro h
    simp only [analyze_specs, h]
  · intro txt hc hp
    simp only [analyze_specs, hc, hp]
  · intro txt v hc hp
    simp only [analyze_specs, hc, hp]

theorem claim_C7_witness :
    analyze_specs (fun _ => .error ()) "sku" "rfp" = degradedTechResult
    ∧ analyze_specs (fun _ => .ok "not json at all") "sku" "rfp" = degradedTechResult :=
  ⟨(claim_C7 (fun _ => .error ()) "sku" "rfp").1 rfl,
   (claim_C7 (fun _ => .ok "not json at all") "sku" "rfp").2.1 "not json at all" rfl rfl⟩

theorem body_match_status (client : Client) (sku_data pricing_data : String)
    (rfp_data : PyDict) :
    dictLookup (match analysisBody client sku_data pricing_data rfp_data with
      | .ok result => result
      | .error _ => fallbackResult) "agent_status" = some (.str "completed") := by
  cases hb : analysisBody client sku_data pricing_data rfp_data with
  | error e => exact dictLookup_fallback_status
  | ok d =>
    obtain ⟨smsv, specs, matched, pricing, sms, margin, hd⟩ :=
      analysisBody_ok _ _ _ _ _ hb
    rw [hd]
    rfl

theorem body_match_suggestions (client : Client) (sku_data pricing_data : String)
    (rfp_data : PyDict) :
    ∃ l, dictLookup (match analysisBody client sku_data pricing_data rfp_data with
      | .ok result => result
      | .error _ => fallbackResult) "suggestions" = some (.list l) ∧ l ≠ [] := by
  cases hb : analysisBody client sku_data pricing_data rfp_data with
  | error e =>
    exact ⟨_, rfl, by simp⟩
  | ok d =>
    obtain ⟨smsv, specs, matched, pricing, sms, margin, hd⟩ :=
      analysisBody_ok _ _ _ _ _ hb
    rw [hd]
    exact ⟨_, rfl, suggestionsFor_ne_nil _ _⟩

theorem qualified_eq_false {rfp_data : PyDict}
    (h : ¬ (check_qualification_constraints rfp_data).qualified = true) :
    (check_qualification_constraints rfp_data).qualified = false := by
  revert h
  cases (check_qualification_constraints rfp_data).qualified <;> simp

/-- C1: for every RFP dict and every client behaviour the orchestrator's
embedding returns a result (total function) whose `agent_status` is
"completed" on every path; whenever the try-block faults on a run that was
not short-circuited by the gate, the result is the fixed fallback
AnalysisResult, whose literal contents are as specified (score 50, win
probability 45, "Analysis Failed" fields, zeroed pricing with margin 20 and
currency USD, REVIEW recommendation, retry/manual-review suggestions). -/
theorem claim_C1 (client : Client) (sku_data pricing_data : String)
    (rfp_data : PyDict) (cc : Bool) :
    dictLookup (run_analysis client sku_data pricing_data rfp_data cc)
      "agent_status" = some (.str "completed")
    ∧ ((cc = false ∨ (check_qualification_constraints rfp_data).qualified = true) →
        analysisBody client sku_data pricing_data rfp_data = .error () →
        run_analysis client sku_data pricing_data rfp_data cc = fallbackResult)
    ∧ fallbackResult =
      [("spec_match_score", .num 50),
       ("win_probability", .num 45),
       ("extracted_specs", .dict [
          ("product_type", .str "Analysis Failed"),
          ("voltage_rating", .str "Analysis Failed"),
          ("material", .str "Analysis Failed"),
          ("durability_rating", .str "Analysis Failed"),
          ("compliance_standards", .str "Analysis Failed")]),
       ("financial_analysis", .dict [
          ("breakdown", .dict [("material_cost", .num 0), ("service_fees", .num 0),
                               ("applied_fees_list", .list [])]),
          ("total_cost_internal", .num 0),
          ("total_bid_value", .num 0),
          ("margin", .num 20),
          ("currency", .str "USD")]),
       ("recommendation", .str "REVIEW - Low confidence"),
       ("recommendation_reason", .str "AI analysis failed, using fallback values. Manual review recommended."),
       ("suggestions", .list [.str "Re-run AI analysis when service is available",
                              .str "Manually review RFP requirements against company capabilities"]),
       ("agent_status", .str "completed")] := by
  refine ⟨?_, ?_, rfl⟩
  · cases cc with
    | false =>
      rw [run_analysis_go client sku_data pricing_data rfp_data false (Or.inl rfl)]
      exact body_match_status client sku_data pricing_data rfp_data
    | true =>
      by_cases hq : (check_qualification_constraints rfp_data).qualified = true
      · rw [run_analysis_go client sku_data pricing_data rfp_data true (Or.inr hq)]
        exact body_match_status client sku_data pricing_data rfp_data
      · rw [run_analysis_reject client sku_data pricing_data rfp_data
          (qualified_eq_false hq)]
        exact dictLookup_rejectResult_status _
  · intro hor hb
    rw [run_analysis_go client sku_data pricing_data rfp_data cc hor, hb]

theorem claim_C1_witness :
    (check_qualification_constraints [("budget", PyVal.num 5)]).qualified = true
    ∧ analysisBody (fun _ => .ok "42") "sku" "price" [("budget", PyVal.num 5)] =
        .error ()
    ∧ run_analysis (fun _ => .ok "42") "sku" "price" [("budget", PyVal.num 5)]
        true = fallbackResult :=
  ⟨rfl, rfl,
   (claim_C1 (fun _ => .ok "42") "sku" "price" [("budget", PyVal.num 5)] true).2.1
     (Or.inr rfl) rfl⟩

/-- C6: with the gate enabled and a non-positive numeric budget, `analyze`
never consults the completion client: any two clients (and any two
reference corpora) produce the identical short-circuit result, the literal
rejection AnalysisResult carrying the gate's reason, zero scores, empty
specification and pricing objects, the two fixed review suggestions, and
agent_status "completed". -/
theorem claim_C6 (c₁ c₂ : Client) (sku₁ pr₁ sku₂ pr₂ : String)
    (rfp : PyDict) (b : ℚ)
    (hb : dictGet rfp "budget" (.num 0) = .num b) (hle : b ≤ 0) :
    run_analysis c₁ sku₁ pr₁ rfp true =
      rejectResult "Budget not specified or invalid"
    ∧ run_analysis c₁ sku₁ pr₁ rfp true = run_analysis c₂ sku₂ pr₂ rfp true
    ∧ rejectResult "Budget not specified or invalid" =
      [("spec_match_score", .num 0),
       ("win_probability", .num 0),
       ("extracted_specs", .dict []),
       ("financial_analysis", .dict []),
       ("recommendation", .str "REJECT - Does not meet qualification criteria"),
       ("recommendation_reason", .str "Budget not specified or invalid"),
       ("suggestions", .list [.str "Review qualification criteria with admin",
                              .str "Consider adjusting RFP requirements"]),
       ("agent_status", .str "completed")] := by
  have hq : check_qualification_constraints rfp =
      ⟨false, "Budget not specified or invalid"⟩ := by
    rw [check_qual_num rfp b hb, if_pos hle]
  have h1 : run_analysis c₁ sku₁ pr₁ rfp true =
      rejectResult "Budget not specified or invalid" := by
    have := run_analysis_reject c₁ sku₁ pr₁ rfp (by rw [hq])
    rwa [hq] at this
  have h2 : run_analysis c₂ sku₂ pr₂ rfp true =
      rejectResult "Budget not specified or invalid" := by
    have := run_analysis_reject c₂ sku₂ pr₂ rfp (by rw [hq])
    rwa [hq] at this
  exact ⟨h1, h1.trans h2.symm, rfl⟩

theorem claim_C6_witness :
    dictGet [("budget", PyVal.num 0)] "budget" (.num 0) = .num 0
    ∧ run_analysis (fun _ => .error ()) "s1" "p1" [("budget", PyVal.num 0)] true =
        run_analysis (fun _ => .ok "\x7b\"margin\": 99\x7d") "s2" "p2"
          [("budget", PyVal.num 0)] true :=
  ⟨rfl,
   (claim_C6 (fun _ => .error ()) (fun _ => .ok "\x7b\"margin\": 99\x7d")
     "s1" "p1" "s2" "p2" [("budget", PyVal.num 0)] 0 rfl (by norm_num)).2.1⟩

/-- C8: the suggestions list is non-empty on every path of `run_analysis`;
on the qualified path the two conditional suggestions are appended in the
fixed order with the generic positive suggestion as the default, and the
disqualification and top-level-fallback paths each carry exactly the two
fixed suggestions. -/
theorem claim_C8 :
    (∀ (client : Client) (sku_data pricing_data : String) (rfp_data : PyDict)
        (cc : Bool),
      ∃ l, dictLookup (run_analysis client sku_data pricing_data rfp_data cc)
        "suggestions" = some (.list l) ∧ l ≠ [])
    ∧ (∀ sms w : ℚ,
        suggestionsFor sms w ≠ []
        ∧ (sms < 70 → w < 60 → suggestionsFor sms w =
            [.str "Consider adjusting technical specifications to better match available product portfolio",
             .str "Review pricing strategy - current margin may be too aggressive for market conditions"])
        ∧ (sms < 70 → ¬ w < 60 → suggestionsFor sms w =
            [.str "Consider adjusting technical specifications to better match available product portfolio"])
        ∧ (¬ sms < 70 → w < 60 → suggestionsFor sms w =
            [.str "Review pricing strategy - current margin may be too aggressive for market conditions"])
        ∧ (¬ sms < 70 → ¬ w < 60 → suggestionsFor sms w =
            [.str "Proposal appears well-aligned with requirements - focus on competitive pricing and delivery timeline"]))
    ∧ (∀ r : String, dictLookup (rejectResult r) "suggestions" =
        some (.list [.str "Review qualification criteria with admin",
                     .str "Consider adjusting RFP requirements"]))
    ∧ dictLookup fallbackResult "suggestions" =
        some (.list [.str "Re-run AI analysis when service is available",
                     .str "Manually review RFP requirements against company capabilities"]) := by
  refine ⟨?_, ?_, fun r => rfl, rfl⟩
  · intro client sku_data pricing_data rfp_data cc
    cases cc with
    | false =>
      rw [run_analysis_go client sku_data pricing_data rfp_data false (Or.inl rfl)]
      exact body_match_suggestions client sku_data pricing_data rfp_data
    | true =>
      by_cases hq : (check_qualification_constraints rfp_data).qualified = true
      · rw [run_analysis_go client sku_data pricing_data rfp_data true (Or.inr hq)]
        exact body_match_suggestions client sku_data pricing_data rfp_data
      · rw [run_analysis_reject client sku_data pricing_data rfp_data
          (qualified_eq_false hq)]
        exact ⟨_, rfl, by simp⟩
  · intro sms w
    refine ⟨suggestionsFor_ne_nil sms w, ?_, ?_, ?_, ?_⟩ <;>
      · intro h1 h2
        simp [suggestionsFor, h1, h2]

theorem claim_C8_witness :
    suggestionsFor 65 50 =
      [.str "Consider adjusting technical specifications to better match available product portfolio",
       .str "Review pricing strategy - current margin may be too aggressive for market conditions"]
    ∧ suggestionsFor 65 80 =
      [.str "Consider adjusting technical specifications to better match available product portfolio"]
    ∧ suggestionsFor 90 50 =
      [.str "Review pricing strategy - current margin may be too aggressive for market conditions"]
    ∧ suggestionsFor 90 80 =
      [.str "Proposal appears well-aligned with requirements - focus on competitive pricing and delivery timeline"] :=
  ⟨(claim_C8.2.1 65 50).2.1 (by norm_num) (by norm_num),
   (claim_C8.2.1 65 80).2.2.1 (by norm_num) (by norm_num),
   (claim_C8.2.1 90 50).2.2.2.1 (by norm_num) (by norm_num),
   (claim_C8.2.1 90 80).2.2.2.2 (by norm_num) (by norm_num)⟩
